import Mathlib

/-!
Verification of the action-normalization pipeline of the shoppingmate
service (files `src/shoppingmateservice/main.py` and
`src/shoppingmateservice/shoppingMate.py`).

The embedding starts at the point where the raw language-model reply
(a string) is in hand: JSON decoding (`json_loads`, modelling Python's
strict `json.loads`), the per-action enrichment loop, the price-range
regex, and the in-memory catalog search are all translated from the
source.  Python dicts are modelled as insertion-ordered association
lists (`Json.obj`), Python floats as rationals, and Python exceptions
as `Except` errors; the error payload strings are informational only.
The optional image-captioning step (an external vision-model call) is
not modelled; all theorems concern runs without it.
-/

attribute [local semireducible] Rat.add Rat.mul Rat.inv Rat.sub Rat.ofScientific

/-- JSON values, as produced by Python's `json.loads`: objects are
insertion-ordered key/value lists (Python dicts), numbers are modelled
as rationals (Python ints/floats; every numeric literal is finite and
every literal in the repository is exactly representable).  `json.loads`
additionally accepts, by default, the non-standard constants `NaN`,
`Infinity` and `-Infinity`, decoding them to the IEEE floats
`float("nan")` / `float("±inf")`; `nan` and `inf` represent those. -/
inductive Json where
  | null : Json
  | bool : Bool → Json
  | num : Rat → Json
  | nan : Json
  | inf : Bool → Json
  | str : String → Json
  | arr : List Json → Json
  | obj : List (String × Json) → Json

/-- `d.get(k)` on a Python dict: first binding wins (the parser and all
updates keep keys unique, mirroring dict semantics). -/
def lookupKey : List (String × Json) → String → Option Json
  | [], _ => none
  | (k0, v0) :: rest, k => if k0 = k then some v0 else lookupKey rest k

/-- `d[k] = v` on a Python dict: an existing key keeps its position and
gets the new value; a new key is appended at the end. -/
def setKey : List (String × Json) → String → Json → List (String × Json)
  | [], k, v => [(k, v)]
  | (k0, v0) :: rest, k, v =>
      if k0 = k then (k0, v) :: rest else (k0, v0) :: setKey rest k v

/-- Python truthiness of a JSON value (`if x:`): `None`, `False`, `0`,
`""`, `[]`, `{}` are falsy, everything else truthy. -/
def truthy : Json → Bool
  | Json.null => false
  | Json.bool b => b
  | Json.num q => if q = 0 then false else true
  | Json.nan => true
  | Json.inf _ => true
  | Json.str s => if s = "" then false else true
  | Json.arr [] => false
  | Json.arr (_ :: _) => true
  | Json.obj [] => false
  | Json.obj (_ :: _) => true

/-- Truthiness of `d.get(k)` (missing key gives `None`, which is falsy). -/
def truthyOpt (o : Option Json) : Bool :=
  match o with
  | none => false
  | some v => truthy v

/-- A Python float as it participates in arithmetic and comparisons:
finite values are exact rationals; `nan` and `±inf` follow IEEE rules
(every comparison involving `nan` is `False`). -/
inductive PyFloat where
  | fin : Rat → PyFloat
  | nan : PyFloat
  | inf : Bool → PyFloat

/-- IEEE addition as Python performs it (no overflow modelling needed:
only exact decimals and the three constants occur). -/
def pyFloatAdd : PyFloat → PyFloat → PyFloat
  | PyFloat.fin a, PyFloat.fin b => PyFloat.fin (a + b)
  | PyFloat.nan, _ => PyFloat.nan
  | _, PyFloat.nan => PyFloat.nan
  | PyFloat.inf n1, PyFloat.inf n2 => if n1 = n2 then PyFloat.inf n1 else PyFloat.nan
  | PyFloat.inf n, PyFloat.fin _ => PyFloat.inf n
  | PyFloat.fin _, PyFloat.inf n => PyFloat.inf n

/-- Division by a positive finite constant (used for `nanos / 1e9`). -/
def pyFloatDivPos (x : PyFloat) (c : Rat) : PyFloat :=
  match x with
  | PyFloat.fin q => PyFloat.fin (q / c)
  | other => other

/-- `x < m` for a finite `m`: `nan` compares `False`, `-inf` is below
everything, `+inf` above. -/
def pyFloatLtR : PyFloat → Rat → Bool
  | PyFloat.fin q, m => decide (q < m)
  | PyFloat.nan, _ => false
  | PyFloat.inf neg, _ => neg

/-- `x >= m` for a finite `m`. -/
def pyFloatGeR : PyFloat → Rat → Bool
  | PyFloat.fin q, m => decide (q ≥ m)
  | PyFloat.nan, _ => false
  | PyFloat.inf neg, _ => !neg

/-- `x <= m` for a finite `m`. -/
def pyFloatLeR : PyFloat → Rat → Bool
  | PyFloat.fin q, m => decide (q ≤ m)
  | PyFloat.nan, _ => false
  | PyFloat.inf neg, _ => neg

/-- Python truthiness of a float: only `0.0` is falsy (`bool(nan)` and
`bool(±inf)` are `True`). -/
def pyFloatTruthy : PyFloat → Bool
  | PyFloat.fin q => !decide (q = 0)
  | _ => true

/-- The numeric value Python would use a JSON value as, in arithmetic or
an order comparison with a number: numbers (including the decoded
`NaN`/`±Infinity` constants) are themselves, booleans are 0/1 (`bool`
is an `int` subclass), anything else raises `TypeError`. -/
def pyNum : Json → Option PyFloat
  | Json.num q => some (PyFloat.fin q)
  | Json.nan => some PyFloat.nan
  | Json.inf neg => some (PyFloat.inf neg)
  | Json.bool b => some (PyFloat.fin (if b then 1 else 0))
  | _ => none

/-- Python's `str()` of a JSON value, used in f-string interpolation.
Exact for strings; for the other shapes (which no claim inspects) a
simple rendering stands in for Python's repr. -/
def pyStr : Json → String
  | Json.null => "None"
  | Json.bool b => if b then "True" else "False"
  | Json.num q => if q.den = 1 then toString q.num else toString q
  | Json.nan => "nan"
  | Json.inf neg => if neg then "-inf" else "inf"
  | Json.str s => s
  | Json.arr _ => "[...]"
  | Json.obj _ => "\x7b...\x7d"

/-- `sep.join(x)`: succeeds on a list of strings (also on a string,
joining its characters, and on a dict, joining its keys — Python joins
any iterable of strings); raises `TypeError` otherwise. -/
def strItems : List Json → Except String (List String)
  | [] => Except.ok []
  | Json.str s :: rest =>
      match strItems rest with
      | Except.ok ss => Except.ok (s :: ss)
      | Except.error e => Except.error e
  | _ :: _ => Except.error "TypeError: sequence item is not str"

def pyJoin (sep : String) : Json → Except String String
  | Json.arr xs =>
      match strItems xs with
      | Except.ok ss => Except.ok (String.intercalate sep ss)
      | Except.error e => Except.error e
  | Json.str s =>
      Except.ok (String.intercalate sep (s.data.map (fun c => String.mk [c])))
  | Json.obj kvs =>
      Except.ok (String.intercalate sep (kvs.map (fun kv => kv.1)))
  | _ => Except.error "TypeError: can only join an iterable"

/-- `true` exactly on `Except.ok`. -/
def okB {ε α : Type} : Except ε α → Bool
  | Except.ok _ => true
  | Except.error _ => false

/-! ## A strict JSON parser, modelling Python's `json.loads`.

Follows the grammar `json.loads` accepts in its default mode: RFC 8259
— the only whitespace is space/tab/newline/return, strings are
double-quoted with the standard escapes and reject unescaped control
characters, numbers have no leading zeros or lone dots, and any
trailing data after the top-level value is an error — extended, as
CPython's default `parse_constant` does, with the case-sensitive
constants `NaN`, `Infinity` and `-Infinity` in any value position.
(Surrogate-pair recombination in `\u` escapes is not modelled; no
claim involves it.) -/

def jsonWs (c : Char) : Bool :=
  c = ' ' || c = '\t' || c = '\n' || c = '\r'

def skipWs : List Char → List Char
  | [] => []
  | c :: cs => if jsonWs c then skipWs cs else c :: cs

def isDigitCh (c : Char) : Bool := '0' ≤ c && c ≤ '9'

def digitVal (c : Char) : Nat := c.toNat - '0'.toNat

def digitsToNat (ds : List Char) : Nat :=
  ds.foldl (fun n c => n * 10 + digitVal c) 0

def spanDigits : List Char → (List Char × List Char)
  | [] => ([], [])
  | c :: cs =>
      if isDigitCh c then
        let (ds, rest) := spanDigits cs
        (c :: ds, rest)
      else ([], c :: cs)

def hexVal (c : Char) : Option Nat :=
  let n := c.toNat
  if 48 ≤ n && n ≤ 57 then some (n - 48)
  else if 97 ≤ n && n ≤ 102 then some (n - 87)
  else if 65 ≤ n && n ≤ 70 then some (n - 55)
  else none

/-- Body of a JSON string after the opening quote; `acc` holds the
characters read so far (reversed). -/
def parseStrAux : List Char → List Char → Option (String × List Char)
  | acc, '"' :: rest => some (String.mk acc.reverse, rest)
  | acc, '\\' :: e :: rest =>
      match e, rest with
      | '"', r => parseStrAux ('"' :: acc) r
      | '\\', r => parseStrAux ('\\' :: acc) r
      | '/', r => parseStrAux ('/' :: acc) r
      | 'b', r => parseStrAux ('\x08' :: acc) r
      | 'f', r => parseStrAux ('\x0c' :: acc) r
      | 'n', r => parseStrAux ('\n' :: acc) r
      | 'r', r => parseStrAux ('\r' :: acc) r
      | 't', r => parseStrAux ('\t' :: acc) r
      | 'u', h1 :: h2 :: h3 :: h4 :: r =>
          match hexVal h1, hexVal h2, hexVal h3, hexVal h4 with
          | some a, some b, some c, some d =>
              parseStrAux (Char.ofNat (((a * 16 + b) * 16 + c) * 16 + d) :: acc) r
          | _, _, _, _ => none
      | _, _ => none
  | acc, c :: rest =>
      if c.toNat < 0x20 then none else parseStrAux (c :: acc) rest
  | _, [] => none

/-- JSON number starting at the head of the input (grammar
`-? (0 | [1-9][0-9]*) (. [0-9]+)? ([eE][+-]?[0-9]+)?`), returning its
exact rational value. -/
def parseNum (cs : List Char) : Option (Rat × List Char) :=
  let (neg, cs1) :=
    match cs with
    | '-' :: rest => (true, rest)
    | _ => (false, cs)
  let ipart : Option (List Char × List Char) :=
    match cs1 with
    | '0' :: rest => some (['0'], rest)
    | c :: rest =>
        if isDigitCh c then
          let (ds, r) := spanDigits rest
          some (c :: ds, r)
        else none
    | [] => none
  match ipart with
  | none => none
  | some (ids, cs2) =>
    let fpart : Option (Option (List Char) × List Char) :=
      match cs2 with
      | '.' :: rest =>
          match spanDigits rest with
          | ([], _) => none
          | (ds, r) => some (some ds, r)
      | _ => some (none, cs2)
    match fpart with
    | none => none
    | some (fds, cs3) =>
      let epart : Option (Option (Bool × List Char) × List Char) :=
        match cs3 with
        | 'e' :: rest | 'E' :: rest =>
            let (eneg, rest2) :=
              match rest with
              | '+' :: r => (false, r)
              | '-' :: r => (true, r)
              | _ => (false, rest)
            match spanDigits rest2 with
            | ([], _) => none
            | (ds, r) => some (some (eneg, ds), r)
        | _ => some (none, cs3)
      match epart with
      | none => none
      | some (ep, cs4) =>
        let base : Rat :=
          (digitsToNat ids : Rat) +
            (match fds with
             | none => 0
             | some ds => (digitsToNat ds : Rat) / ((10 : Rat) ^ ds.length))
        let scaled : Rat :=
          match ep with
          | none => base
          | some (eneg, ds) =>
              if eneg then base / ((10 : Rat) ^ digitsToNat ds)
              else base * ((10 : Rat) ^ digitsToNat ds)
        some ((if neg then -scaled else scaled), cs4)

mutual

/-- JSON value at the head of the input (no leading whitespace). -/
def parseValue : Nat → List Char → Option (Json × List Char)
  | 0, _ => none
  | _ + 1, [] => none
  | fuel + 1, cs =>
      match cs with
      | 't' :: 'r' :: 'u' :: 'e' :: rest => some (Json.bool true, rest)
      | 'f' :: 'a' :: 'l' :: 's' :: 'e' :: rest => some (Json.bool false, rest)
      | 'n' :: 'u' :: 'l' :: 'l' :: rest => some (Json.null, rest)
      | 'N' :: 'a' :: 'N' :: rest => some (Json.nan, rest)
      | 'I' :: 'n' :: 'f' :: 'i' :: 'n' :: 'i' :: 't' :: 'y' :: rest =>
          some (Json.inf false, rest)
      | '-' :: 'I' :: 'n' :: 'f' :: 'i' :: 'n' :: 'i' :: 't' :: 'y' :: rest =>
          some (Json.inf true, rest)
      | '"' :: rest =>
          match parseStrAux [] rest with
          | some (s, r) => some (Json.str s, r)
          | none => none
      | '[' :: rest =>
          match skipWs rest with
          | ']' :: r => some (Json.arr [], r)
          | r => parseArrElems fuel [] r
      | '\x7b' :: rest =>
          match skipWs rest with
          | '\x7d' :: r => some (Json.obj [], r)
          | r => parseObjElems fuel [] r
      | c :: _ =>
          if isDigitCh c || c = '-' then
            match parseNum cs with
            | some (q, r) => some (Json.num q, r)
            | none => none
          else none
      | [] => none

/-- Comma-separated array elements (at least one remaining). -/
def parseArrElems : Nat → List Json → List Char → Option (Json × List Char)
  | 0, _, _ => none
  | fuel + 1, acc, cs =>
      match parseValue fuel cs with
      | none => none
      | some (v, r1) =>
          match skipWs r1 with
          | ',' :: r2 => parseArrElems fuel (acc ++ [v]) (skipWs r2)
          | ']' :: r2 => some (Json.arr (acc ++ [v]), r2)
          | _ => none

/-- Comma-separated object members (at least one remaining); a repeated
key overwrites the earlier value in place, as in a Python dict. -/
def parseObjElems : Nat → List (String × Json) → List Char →
    Option (Json × List Char)
  | 0, _, _ => none
  | fuel + 1, acc, cs =>
      match cs with
      | '"' :: rest =>
          match parseStrAux [] rest with
          | none => none
          | some (k, r1) =>
              match skipWs r1 with
              | ':' :: r2 =>
                  match parseValue fuel (skipWs r2) with
                  | none => none
                  | some (v, r3) =>
                      match skipWs r3 with
                      | ',' :: r4 => parseObjElems fuel (setKey acc k v) (skipWs r4)
                      | '\x7d' :: r4 => some (Json.obj (setKey acc k v), r4)
                      | _ => none
              | _ => none
      | _ => none

end

/-- Python's `json.loads`: decode one JSON value, allowing surrounding
whitespace only; any other trailing data is an error (`none`). -/
def json_loads (s : String) : Option Json :=
  match parseValue (2 * s.length + 4) (skipWs s.data) with
  | some (v, rest) => if skipWs rest = [] then some v else none
  | none => none

/-! ## The price-range regex

`re.search(r'(under|over)\s*(\d+(\.\d+)?)\s*(USD|EUR|JPY|GBP|TRY|CAD)?',
query, re.IGNORECASE)` (main.py line 252, shoppingMate.py line 169):
leftmost match wins; the literal alternatives match case-insensitively;
the greedy quantifiers never need backtracking because each piece is
followed only by pieces it cannot overlap with.  Group 1 is the
direction text, group 2 the number text (converted by `float`), group 4
the optional currency text. -/

/-- Python `str.lower()` / `str.upper()`, modelled character-wise
(`Char.toLower`/`Char.toUpper` act on ASCII letters; all strings this
program compares are ASCII). -/
def strLower (s : String) : String := String.mk (s.data.map Char.toLower)

def strUpper (s : String) : String := String.mk (s.data.map Char.toUpper)

def reSpace (c : Char) : Bool :=
  c = ' ' || c = '\t' || c = '\n' || c = '\r' || c = '\x0b' || c = '\x0c'

def dropSpaces : List Char → List Char
  | [] => []
  | c :: cs => if reSpace c then dropSpaces cs else c :: cs

/-- Case-insensitive literal match at the head of the input; returns the
matched text (in its original case) and the remainder. -/
def matchLit (lit : List Char) (cs : List Char) : Option (List Char × List Char) :=
  match lit, cs with
  | [], rest => some ([], rest)
  | _ :: _, [] => none
  | l :: ls, c :: rest =>
      if c.toLower = l.toLower then
        match matchLit ls rest with
        | some (m, r) => some (c :: m, r)
        | none => none
      else none

/-- First of the given literals that matches at the head of the input. -/
def matchFirstLit : List (List Char) → List Char → Option (List Char × List Char)
  | [], _ => none
  | l :: ls, cs =>
      match matchLit l cs with
      | some res => some res
      | none => matchFirstLit ls cs

/-- The three capture groups the code reads from a successful price
match: `group(1)` (direction), `float(group(2))` (amount) and
`group(4)` (currency, if captured), each as matched in the input. -/
structure PriceGroups where
  dir : List Char
  amount : Rat
  cur : Option (List Char)

def currencyLits : List (List Char) :=
  ["USD".data, "EUR".data, "JPY".data, "GBP".data, "TRY".data, "CAD".data]

/-- Exact value of `float(s)` for `s` matching `\d+(\.\d+)?`. -/
def floatOfDigits (ids : List Char) (fds : Option (List Char)) : Rat :=
  (digitsToNat ids : Rat) +
    (match fds with
     | none => 0
     | some ds => (digitsToNat ds : Rat) / ((10 : Rat) ^ ds.length))

/-- Try to match the whole price pattern anchored at the head of the
input. -/
def matchPriceAt (cs : List Char) : Option PriceGroups :=
  match matchFirstLit ["under".data, "over".data] cs with
  | none => none
  | some (dir, r1) =>
      let r2 := dropSpaces r1
      match spanDigits r2 with
      | ([], _) => none
      | (ids, r3) =>
          let (fds, r4) : Option (List Char) × List Char :=
            match r3 with
            | '.' :: rest =>
                match spanDigits rest with
                | ([], _) => (none, r3)
                | (ds, r) => (some ds, r)
            | _ => (none, r3)
          let r5 := dropSpaces r4
          let cur : Option (List Char) :=
            match matchFirstLit currencyLits r5 with
            | some (m, _) => some m
            | none => none
          some { dir := dir, amount := floatOfDigits ids fds, cur := cur }

/-- `re.search`: try the pattern at each start position, leftmost first. -/
def searchPrice : List Char → Option PriceGroups
  | [] => none
  | c :: cs =>
      match matchPriceAt (c :: cs) with
      | some g => some g
      | none => searchPrice cs

/-- `price_min` as computed from the query (main.py lines 247-260):
set only when a match was found and `group(1).lower() == 'over'`. -/
def extract_price_min (query : String) : Option Rat :=
  match searchPrice query.data with
  | some g => if strLower (String.mk g.dir) = "over" then some g.amount else none
  | none => none

/-- `price_max` as computed from the query: set only when a match was
found and `group(1).lower() == 'under'`. -/
def extract_price_max (query : String) : Option Rat :=
  match searchPrice query.data with
  | some g => if strLower (String.mk g.dir) = "under" then some g.amount else none
  | none => none

/-- `currency_code` as computed from the query: defaults to `"USD"`,
replaced by `group(4).upper()` when the currency group was captured. -/
def extract_currency (query : String) : String :=
  match searchPrice query.data with
  | some g =>
      match g.cur with
      | some c => strUpper (String.mk c)
      | none => "USD"
  | none => "USD"

/-! ## The fixed nine-item catalog and the in-memory search
(main.py lines 17-90 and 99-151). -/

structure Product where
  id : String
  name : String
  price_usd_units : Nat
  price_usd_nanos : Nat
  price_usd_currency_code : String
  description : String

def MOCK_DATABASE : List Product :=
  [ { id := "OLJCESPC7Z", name := "Sunglasses",
      price_usd_units := 19, price_usd_nanos := 990000000,
      price_usd_currency_code := "USD",
      description := "Add a modern touch to your outfits with these sleek aviator sunglasses." },
    { id := "66VCHSJNUP", name := "Tank Top",
      price_usd_units := 18, price_usd_nanos := 990000000,
      price_usd_currency_code := "USD",
      description := "Perfectly cropped cotton tank, with a scooped neckline." },
    { id := "1YMWWN1N4O", name := "Watch",
      price_usd_units := 109, price_usd_nanos := 990000000,
      price_usd_currency_code := "USD",
      description := "This gold-tone stainless steel watch will work with most of your outfits." },
    { id := "L9ECAV7KIM", name := "Loafers",
      price_usd_units := 89, price_usd_nanos := 990000000,
      price_usd_currency_code := "USD",
      description := "A neat addition to your summer wardrobe." },
    { id := "2ZYFJ3GM2N", name := "Hairdryer",
      price_usd_units := 24, price_usd_nanos := 990000000,
      price_usd_currency_code := "USD",
      description := "This lightweight hairdryer has 3 heat and speed settings. It\x27s perfect for travel." },
    { id := "0PUK6V6EV0", name := "Candle Holder",
      price_usd_units := 18, price_usd_nanos := 990000000,
      price_usd_currency_code := "USD",
      description := "This small but intricate candle holder is an excellent gift." },
    { id := "LS4PSXUNUM", name := "Salt & Pepper Shakers",
      price_usd_units := 18, price_usd_nanos := 490000000,
      price_usd_currency_code := "USD",
      description := "Add some flavor to your kitchen." },
    { id := "9SIQT8TOJO", name := "Bamboo Glass Jar",
      price_usd_units := 5, price_usd_nanos := 490000000,
      price_usd_currency_code := "USD",
      description := "This bamboo glass jar can hold 57 oz (1.7 l) and is perfect for any kitchen." },
    { id := "6E92ZMYYFZ", name := "Mug",
      price_usd_units := 8, price_usd_nanos := 990000000,
      price_usd_currency_code := "USD",
      description := "A simple mug with a mustard interior." } ]

def isPrefixChars (needle hay : List Char) : Bool :=
  match needle, hay with
  | [], _ => true
  | a :: as2, b :: bs => a == b && isPrefixChars as2 bs
  | _ :: _, [] => false

def isInfixChars (needle : List Char) : List Char → Bool
  | [] => isPrefixChars needle []
  | c :: cs => isPrefixChars needle (c :: cs) || isInfixChars needle cs

/-- Python `needle in hay` on strings: contiguous substring test. -/
def strContains (hay needle : String) : Bool :=
  isInfixChars needle.data hay.data

/-- `product_price_float = units + nanos / 1_000_000_000` (line 118). -/
def productPrice (p : Product) : Rat :=
  (p.price_usd_units : Rat) + (p.price_usd_nanos : Rat) / 1000000000

/-- The per-product body of the loop in `search_products_in_mock_db`
(main.py lines 103-149): the `continue`-guarded checks amount to the
conjunction of the text, price and gift filters.  Optional arguments
are checked for Python truthiness (`if query_text:` etc.), so an empty
string or a zero age disables the corresponding filter. -/
def productMatches (query_text : Option String) (price_min price_max : Option Rat)
    (currency_code : String) (gender : Option String) (age : Option PyFloat)
    (preferences : Option String) (product : Product) : Bool :=
  let qTruthy : Bool :=
    match query_text with
    | some q => q != ""
    | none => false
  let query_text_lower := if qTruthy then strLower (query_text.getD "") else ""
  let match_text :=
    if qTruthy then
      strContains (strLower product.id) query_text_lower ||
      strContains (strLower product.name) query_text_lower ||
      strContains (strLower product.description) query_text_lower
    else true
  let match_price :=
    (match price_min with
     | some m => !(productPrice product < m || product.price_usd_currency_code ≠ currency_code)
     | none => true) &&
    (match price_max with
     | some m => !(productPrice product > m || product.price_usd_currency_code ≠ currency_code)
     | none => true)
  let match_gift :=
    (match gender with
     | some g =>
         if g = "" then true
         else strContains (strLower product.description) (strLower g) ||
              strContains (strLower product.name) (strLower g)
     | none => true) &&
    (match age with
     | some a =>
         if pyFloatTruthy a then
           !((pyFloatLtR a 18 && strContains (strLower product.description) "adult") ||
             (pyFloatGeR a 18 && strContains (strLower product.description) "kid"))
         else true
     | none => true) &&
    (match preferences with
     | some pr =>
         if pr = "" then true
         else strContains (strLower product.description) (strLower pr) ||
              strContains (strLower product.name) (strLower pr)
     | none => true)
  match_text && match_price && match_gift

/-- `search_products_in_mock_db` (main.py lines 99-151): ids of the
catalog products passing all three filters, in catalog order. -/
def search_products_in_mock_db (query_text : Option String)
    (price_min price_max : Option Rat) (currency_code : String)
    (gender : Option String) (age : Option PyFloat) (preferences : Option String) :
    List String :=
  (MOCK_DATABASE.filter
    (productMatches query_text price_min price_max currency_code gender age preferences)).map
    Product.id

/-! ## Per-action enrichment, main.py variant (lines 226-333)

Each decoded action is a Python dict; a non-dict element raises
`AttributeError` at `action.get("task")`, which — like every exception
in the loop — is caught by the enclosing handler, which appends one
internal-error response and stops processing. -/

def apologyDecodeMsg : String :=
  "I apologize, I had trouble understanding that. Could you please rephrase?"

def apologyFormatMsg : String :=
  "I received an unexpected response format. Please try again."

def internalErrorMsg : String :=
  "An internal error occurred. Please try again later."

def askGenderMsg : String :=
  "To recommend a gift, I need to know the recipient\x27s gender. What is their gender?"

def askAgeMsg : String := "What is their age?"

def askPrefsMsg : String :=
  "What are their preferences (e.g., hobbies, interests)?"

def recommendDefaultMsg : String := "I can recommend some popular products for you."

def emptyCartDefaultMsg : String := "Your cart has been emptied."

/-- `{"task": "response", "message": msg}`. -/
def responseAction (msg : String) : Json :=
  Json.obj [("task", Json.str "response"), ("message", Json.str msg)]

def searchFoundMsgJ (query joined : String) : String :=
  "I found some products related to \x27" ++ query ++
    "\x27. Here are their IDs: " ++ joined

def searchFoundMsg (query : String) (ids : List String) : String :=
  searchFoundMsgJ query (String.intercalate ", " ids)

def searchNoneMsg (query : String) : String :=
  "I couldn\x27t find any products related to \x27" ++ query ++ "\x27."

def giftFoundMsg (ageJ : Json) (gender preferences : String) (ids : List String) : String :=
  "Here are some gift recommendations for a " ++ pyStr ageJ ++ " year old " ++
    gender ++ " with preferences for " ++ preferences ++ ": " ++
    String.intercalate ", " ids

def giftNoneMsg : String :=
  "I couldn\x27t find specific gift recommendations based on the details provided."

def compareMsg (joined : String) : String :=
  "Here are the products you asked to compare: " ++ joined

/-- The `task == "search"` branch (main.py lines 243-275): extract the
price bounds from the query, overwrite `product_ids` with the catalog
search result, and synthesize a message when none is present.  A
non-string `query` value raises `TypeError` inside `re.search`. -/
def processSearch (kvs : List (String × Json)) : Except String Json :=
  match (lookupKey kvs "query").getD (Json.str "") with
  | Json.str query =>
      let found := search_products_in_mock_db (some query)
        (extract_price_min query) (extract_price_max query)
        (extract_currency query) none none none
      let kvs1 := setKey kvs "product_ids" (Json.arr (found.map Json.str))
      if truthyOpt (lookupKey kvs1 "message") then Except.ok (Json.obj kvs1)
      else
        match found with
        | _ :: _ =>
            Except.ok (Json.obj (setKey kvs1 "message" (Json.str (searchFoundMsg query found))))
        | [] =>
            Except.ok (Json.obj (setKey kvs1 "message" (Json.str (searchNoneMsg query))))
  | _ => Except.error "TypeError: expected string or bytes-like object"

/-- The `task == "gift-recommendation"` branch (main.py lines 277-306).
When all three `person_details` fields are truthy, the catalog lookup
is called with them; inside it `gender.lower()` / `age < 18` /
`preferences.lower()` raise unless gender and preferences are strings
and age is a number (a bool counts as 0/1).  Otherwise `product_ids`
is forced empty, a message asking for the first falsy field (gender,
then age, then preferences) is set, and the task is rewritten to
`response`. -/
def processGift (kvs : List (String × Json)) : Except String Json :=
  match (lookupKey kvs "person_details").getD (Json.obj []) with
  | Json.obj pd =>
      let gender := lookupKey pd "gender"
      let age := lookupKey pd "age"
      let preferences := lookupKey pd "preferences"
      if truthyOpt gender && truthyOpt age && truthyOpt preferences then
        match gender, age, preferences with
        | some (Json.str g), some ageJ, some (Json.str p) =>
            match pyNum ageJ with
            | some a =>
                let gift := search_products_in_mock_db none none none "USD"
                  (some g) (some a) (some p)
                let kvs1 := setKey kvs "product_ids" (Json.arr (gift.map Json.str))
                if truthyOpt (lookupKey kvs1 "message") then Except.ok (Json.obj kvs1)
                else
                  match gift with
                  | _ :: _ =>
                      Except.ok (Json.obj
                        (setKey kvs1 "message" (Json.str (giftFoundMsg ageJ g p gift))))
                  | [] =>
                      Except.ok (Json.obj (setKey kvs1 "message" (Json.str giftNoneMsg)))
            | none => Except.error "TypeError: age is not comparable with int"
        | _, _, _ => Except.error "AttributeError: gender or preferences has no lower"
      else
        let kvs1 := setKey kvs "product_ids" (Json.arr [])
        let kvs2 :=
          if !truthyOpt gender then setKey kvs1 "message" (Json.str askGenderMsg)
          else if !truthyOpt age then setKey kvs1 "message" (Json.str askAgeMsg)
          else if !truthyOpt preferences then setKey kvs1 "message" (Json.str askPrefsMsg)
          else kvs1
        Except.ok (Json.obj (setKey kvs2 "task" (Json.str "response")))
  | _ => Except.error "AttributeError: person_details has no get"

/-- The `task == "recommend"` branch (main.py lines 308-313): force
`product_ids = []` and default the message.  Identical in
shoppingMate.py (lines 233-238). -/
def processRecommend (kvs : List (String × Json)) : Except String Json :=
  let kvs1 := setKey kvs "product_ids" (Json.arr [])
  if truthyOpt (lookupKey kvs1 "message") then Except.ok (Json.obj kvs1)
  else Except.ok (Json.obj (setKey kvs1 "message" (Json.str recommendDefaultMsg)))

/-- The `task == "compare" and action.get("product_ids")` branch
(main.py lines 315-320), entered only when `product_ids` is truthy:
leave `product_ids` alone and synthesize a message (joining the ids)
when none is present.  Identical in shoppingMate.py (lines 240-245). -/
def processCompare (kvs : List (String × Json)) : Except String Json :=
  if truthyOpt (lookupKey kvs "message") then Except.ok (Json.obj kvs)
  else
    match pyJoin ", " ((lookupKey kvs "product_ids").getD Json.null) with
    | Except.ok joined =>
        Except.ok (Json.obj (setKey kvs "message" (Json.str (compareMsg joined))))
    | Except.error e => Except.error e

/-- The `task == "empty-cart"` branch (main.py lines 322-324): keep any
existing message (even a falsy one — this branch uses
`action.get("message", default)`, not a truthiness test) and force
`product_ids = []`.  Identical in shoppingMate.py (lines 247-249). -/
def processEmptyCart (kvs : List (String × Json)) : Except String Json :=
  let kvs1 := setKey kvs "message"
    ((lookupKey kvs "message").getD (Json.str emptyCartDefaultMsg))
  Except.ok (Json.obj (setKey kvs1 "product_ids" (Json.arr [])))

/-- Dispatch on `action.get("task")` (main.py lines 240-326).  A task
that is not one of the five handled strings (including a missing or
non-string task) leaves the action unmodified.  The `compare` branch in
the source is guarded by `task == "compare" and action.get("product_ids")`;
when the guard's second conjunct fails no later `elif` can fire (they
re-test `task`), so the action passes through unchanged. -/
def processObj (kvs : List (String × Json)) : Except String Json :=
  match lookupKey kvs "task" with
  | some (Json.str t) =>
      if t = "search" then processSearch kvs
      else if t = "gift-recommendation" then processGift kvs
      else if t = "recommend" then processRecommend kvs
      else if t = "compare" then
        if truthyOpt (lookupKey kvs "product_ids") then processCompare kvs
        else Except.ok (Json.obj kvs)
      else if t = "empty-cart" then processEmptyCart kvs
      else Except.ok (Json.obj kvs)
  | _ => Except.ok (Json.obj kvs)

/-- One iteration of `for action in parsed_actions:`; a non-dict
element raises `AttributeError` at `action.get("task")`. -/
def processAction : Json → Except String Json
  | Json.obj kvs => processObj kvs
  | _ => Except.error "AttributeError: object has no attribute get"

/-- The processing loop: actions already accumulated stay in `acc`; an
exception anywhere in the loop is caught by the outer handler (main.py
lines 328-331), which appends one internal-error response and returns. -/
def runLoop : List Json → List Json → List Json
  | acc, [] => acc
  | acc, a :: rest =>
      match processAction a with
      | Except.ok a2 => runLoop (acc ++ [a2]) rest
      | Except.error _ => acc ++ [responseAction internalErrorMsg]

/-- The normalizer of main.py from the raw model reply onward (lines
226-333), with no image-captioning step: decode `ai_output`; on a
decode error append the first apology and leave `parsed_actions` as the
initial `[]`; on a decoded non-array, append the format apology — but
`parsed_actions` has already been rebound to the decoded value, so the
loop then iterates it: over a string it yields its characters, over a
dict its keys (both non-dicts, raising `AttributeError` unless empty),
and over a number, boolean or `None` the `for` itself raises
`TypeError`, caught by the outer handler. -/
def process_query (ai_output : String) : List Json :=
  match json_loads ai_output with
  | none => [responseAction apologyDecodeMsg]
  | some (Json.arr xs) => runLoop [] xs
  | some v =>
      let acc := [responseAction apologyFormatMsg]
      match v with
      | Json.str s => runLoop acc (s.data.map (fun c => Json.str (String.mk [c])))
      | Json.obj kvs => runLoop acc (kvs.map (fun kv => Json.str kv.1))
      | _ => acc ++ [responseAction internalErrorMsg]

/-! ## Per-action enrichment, shoppingMate.py variant (lines 140-257)

The vector store is an external collaborator: `similarity_search query k`
returns documents, modelled by their metadata dicts.  When
initialization failed the module-level `vectorstore` is `None` (lines
41-67), the falsy `if vectorstore:` guard (line 159) skips every
branch, and each action is appended untouched. -/

/-- The deterministic catalog collaborator of the vector-store variant:
`similarity_search(query, k)` yields a list of documents, each carrying
a metadata dict. -/
structure VStore where
  similarity_search : String → Nat → List (List (String × Json))

/-- Price filter over the search results (shoppingMate.py lines
181-196): metadata prices default to 0 and the currency to `"USD"`;
non-numeric price components raise `TypeError` in the arithmetic, and a
missing `id` raises `KeyError`.  An entry is kept when the bounds and
the currency equality hold, or when no bound was given at all. -/
def smFilterDocs (price_min price_max : Option Rat) (currency_code : String) :
    List (List (String × Json)) → Except String (List Json)
  | [] => Except.ok []
  | meta :: rest =>
      match pyNum ((lookupKey meta "price_usd_units").getD (Json.num 0)),
            pyNum ((lookupKey meta "price_usd_nanos").getD (Json.num 0)) with
      | some u, some n =>
          let current_product_price := pyFloatAdd u (pyFloatDivPos n 1000000000)
          let codeMatches :=
            match (lookupKey meta "price_usd_currency_code").getD (Json.str "USD") with
            | Json.str c => c = currency_code
            | _ => false
          let keep :=
            ((match price_min with
              | none => true
              | some m => pyFloatGeR current_product_price m) &&
             (match price_max with
              | none => true
              | some m => pyFloatLeR current_product_price m) &&
             codeMatches) ||
            (price_min.isNone && price_max.isNone)
          if keep then
            match lookupKey meta "id" with
            | some idv =>
                match smFilterDocs price_min price_max currency_code rest with
                | Except.ok ids => Except.ok (idv :: ids)
                | Except.error e => Except.error e
            | none => Except.error "KeyError: id"
          else smFilterDocs price_min price_max currency_code rest
      | _, _ => Except.error "TypeError: unsupported operand type"

/-- `[doc.metadata['id'] for doc in gift_results]` (line 215). -/
def smDocIds : List (List (String × Json)) → Except String (List Json)
  | [] => Except.ok []
  | meta :: rest =>
      match lookupKey meta "id" with
      | some idv =>
          match smDocIds rest with
          | Except.ok ids => Except.ok (idv :: ids)
          | Except.error e => Except.error e
      | none => Except.error "KeyError: id"

/-- The `task == "search"` branch of the vector-store variant (lines
160-203): same price extraction, then top-10 similarity search and the
price post-filter; `product_ids` is overwritten with the filtered ids
and a message synthesized when none is present (joining the ids, which
raises unless they are all strings). -/
def smProcessSearch (store : VStore) (kvs : List (String × Json)) :
    Except String Json :=
  match (lookupKey kvs "query").getD (Json.str "") with
  | Json.str query =>
      match smFilterDocs (extract_price_min query) (extract_price_max query)
          (extract_currency query) (store.similarity_search query 10) with
      | Except.error e => Except.error e
      | Except.ok filtered =>
          let kvs1 := setKey kvs "product_ids" (Json.arr filtered)
          if truthyOpt (lookupKey kvs1 "message") then Except.ok (Json.obj kvs1)
          else
            match filtered with
            | _ :: _ =>
                match pyJoin ", " (Json.arr filtered) with
                | Except.ok joined =>
                    Except.ok (Json.obj (setKey kvs1 "message"
                      (Json.str (searchFoundMsgJ query joined))))
                | Except.error e => Except.error e
            | [] =>
                Except.ok (Json.obj (setKey kvs1 "message" (Json.str (searchNoneMsg query))))
  | _ => Except.error "TypeError: expected string or bytes-like object"

def giftQueryStr (ageJ genderJ prefJ : Json) : String :=
  "gift for " ++ pyStr ageJ ++ " year old " ++ pyStr genderJ ++
    " with preferences for " ++ pyStr prefJ

def giftFoundMsgJ (ageJ genderJ prefJ : Json) (joined : String) : String :=
  "Here are some gift recommendations for a " ++ pyStr ageJ ++ " year old " ++
    pyStr genderJ ++ " with preferences for " ++ pyStr prefJ ++ ": " ++ joined

/-- The `task == "gift-recommendation"` branch of the vector-store
variant (lines 205-231).  With all three fields truthy it runs a top-5
similarity search on a synthesized gift query (f-string interpolation
accepts any value, so no type errors before the id extraction and the
join); the missing-details branch is identical to main.py. -/
def smProcessGift (store : VStore) (kvs : List (String × Json)) :
    Except String Json :=
  match (lookupKey kvs "person_details").getD (Json.obj []) with
  | Json.obj pd =>
      let gender := lookupKey pd "gender"
      let age := lookupKey pd "age"
      let preferences := lookupKey pd "preferences"
      if truthyOpt gender && truthyOpt age && truthyOpt preferences then
        let ageJ := age.getD Json.null
        let genderJ := gender.getD Json.null
        let prefJ := preferences.getD Json.null
        match smDocIds (store.similarity_search (giftQueryStr ageJ genderJ prefJ) 5) with
        | Except.error e => Except.error e
        | Except.ok ids =>
            let kvs1 := setKey kvs "product_ids" (Json.arr ids)
            if truthyOpt (lookupKey kvs1 "message") then Except.ok (Json.obj kvs1)
            else
              match ids with
              | _ :: _ =>
                  match pyJoin ", " (Json.arr ids) with
                  | Except.ok joined =>
                      Except.ok (Json.obj (setKey kvs1 "message"
                        (Json.str (giftFoundMsgJ ageJ genderJ prefJ joined))))
                  | Except.error e => Except.error e
              | [] =>
                  Except.ok (Json.obj (setKey kvs1 "message" (Json.str giftNoneMsg)))
      else
        let kvs1 := setKey kvs "product_ids" (Json.arr [])
        let kvs2 :=
          if !truthyOpt gender then setKey kvs1 "message" (Json.str askGenderMsg)
          else if !truthyOpt age then setKey kvs1 "message" (Json.str askAgeMsg)
          else if !truthyOpt preferences then setKey kvs1 "message" (Json.str askPrefsMsg)
          else kvs1
        Except.ok (Json.obj (setKey kvs2 "task" (Json.str "response")))
  | _ => Except.error "AttributeError: person_details has no get"

/-- Dispatch of the vector-store variant (lines 156-251): the whole
`if/elif` chain sits under `if vectorstore:`, so with an uninitialized
store (`None`, falsy) every dict action is appended unmodified — only
`task = action.get("task")` runs, which still raises on a non-dict. -/
def smProcessObj (store : VStore) (kvs : List (String × Json)) :
    Except String Json :=
  match lookupKey kvs "task" with
  | some (Json.str t) =>
      if t = "search" then smProcessSearch store kvs
      else if t = "gift-recommendation" then smProcessGift store kvs
      else if t = "recommend" then processRecommend kvs
      else if t = "compare" then
        if truthyOpt (lookupKey kvs "product_ids") then processCompare kvs
        else Except.ok (Json.obj kvs)
      else if t = "empty-cart" then processEmptyCart kvs
      else Except.ok (Json.obj kvs)
  | _ => Except.ok (Json.obj kvs)

/-- One loop iteration of the vector-store variant: `action.get("task")`
runs unconditionally (line 157); the dispatch only runs when the
vectorstore handle is not `None`. -/
def smProcessAction (vs : Option VStore) : Json → Except String Json
  | Json.obj kvs =>
      match vs with
      | some store => smProcessObj store kvs
      | none => Except.ok (Json.obj kvs)
  | _ => Except.error "AttributeError: object has no attribute get"

/-- The processing loop of the vector-store variant (lines 156-255):
identical failure handling to main.py. -/
def smRunLoop (vs : Option VStore) : List Json → List Json → List Json
  | acc, [] => acc
  | acc, a :: rest =>
      match smProcessAction vs a with
      | Except.ok a2 => smRunLoop vs (acc ++ [a2]) rest
      | Except.error _ => acc ++ [responseAction internalErrorMsg]

/-- The normalizer of shoppingMate.py from the raw model reply onward
(lines 142-257), parameterized by the module-level vectorstore handle;
the parse-or-fallback step is identical to main.py. -/
def sm_process_query (vs : Option VStore) (ai_output : String) : List Json :=
  match json_loads ai_output with
  | none => [responseAction apologyDecodeMsg]
  | some (Json.arr xs) => smRunLoop vs [] xs
  | some v =>
      let acc := [responseAction apologyFormatMsg]
      match v with
      | Json.str s => smRunLoop vs acc (s.data.map (fun c => Json.str (String.mk [c])))
      | Json.obj kvs => smRunLoop vs acc (kvs.map (fun kv => Json.str kv.1))
      | _ => acc ++ [responseAction internalErrorMsg]

/-! ## Dictionary lemmas -/

theorem lookupKey_setKey_self (kvs : List (String × Json)) (k : String) (v : Json) :
    lookupKey (setKey kvs k v) k = some v := by
  induction kvs with
  | nil => simp [setKey, lookupKey]
  | cons hd tl ih =>
      obtain ⟨k0, v0⟩ := hd
      by_cases h : k0 = k
      · simp [setKey, lookupKey, h]
      · simp [setKey, lookupKey, h, ih]

theorem lookupKey_setKey_ne (kvs : List (String × Json)) (k k2 : String) (v : Json)
    (h : k ≠ k2) : lookupKey (setKey kvs k v) k2 = lookupKey kvs k2 := by
  induction kvs with
  | nil => simp [setKey, lookupKey, h]
  | cons hd tl ih =>
      obtain ⟨k0, v0⟩ := hd
      by_cases h0 : k0 = k
      · subst h0
        simp [setKey, lookupKey, h]
      · by_cases h2 : k0 = k2
        · have h3 : ¬ k2 = k := fun e => h e.symm
          simp [setKey, lookupKey, h0, h2, h3]
        · simp [setKey, lookupKey, h0, h2, ih]

/-- The result a successful iteration contributes (`Json.null` is a
dummy for the error case, which callers rule out). -/
def okOut (j : Json) : Json :=
  match processAction j with
  | Except.ok r => r
  | Except.error _ => Json.null

theorem runLoop_all_ok (l : List Json) (acc : List Json)
    (h : ∀ b ∈ l, okB (processAction b) = true) :
    runLoop acc l = acc ++ l.map okOut := by
  induction l generalizing acc with
  | nil => simp [runLoop]
  | cons a rest ih =>
      have ha : okB (processAction a) = true := h a (by simp)
      cases hpa : processAction a with
      | ok r =>
          have hrest : ∀ b ∈ rest, okB (processAction b) = true := by
            intro b hb
            exact h b (by simp [hb])
          simp [runLoop, hpa, ih _ hrest, okOut]
      | error e => simp [okB, hpa] at ha

/-! ## Claim C10 -/

/-- Claim C10: the normalizer is a pure function of the raw model
output (and, in the vector-store variant, of the fixed deterministic
catalog collaborator), so running it twice on the same input yields
identical action lists.  Statelessness is captured by the embedding:
`process_query` and `sm_process_query` read nothing but their
arguments and the module-level read-only catalog. -/
theorem claim_C10 (ai_output : String) (vs : Option VStore) :
    process_query ai_output = process_query ai_output ∧
    sm_process_query vs ai_output = sm_process_query vs ai_output :=
  ⟨rfl, rfl⟩

/-- Witness for C10 at a concrete raw output. -/
theorem claim_C10_witness :
    process_query "[\x7b\"task\": \"recommend\"\x7d]" =
      process_query "[\x7b\"task\": \"recommend\"\x7d]" :=
  (claim_C10 "[\x7b\"task\": \"recommend\"\x7d]" none).1

/-! ## Claim C5 -/

/-- Claim C5: price extraction on `"under 100"` gives only
`price_max = 100` with currency USD; on `"over 50 EUR"` only
`price_min = 50` with currency EUR; `"under $19.99"` does not match
(the dollar symbol is not in the pattern), so no bound is set;
matching is case-insensitive and the currency defaults to USD when
omitted. -/
theorem claim_C5 :
    (extract_price_max "under 100" = some 100 ∧
     extract_price_min "under 100" = none ∧
     extract_currency "under 100" = "USD") ∧
    (extract_price_min "over 50 EUR" = some 50 ∧
     extract_price_max "over 50 EUR" = none ∧
     extract_currency "over 50 EUR" = "EUR") ∧
    (searchPrice "under $19.99".data = none ∧
     extract_price_max "under $19.99" = none ∧
     extract_price_min "under $19.99" = none) ∧
    (extract_price_max "UNDER 100" = some 100 ∧
     extract_price_min "Over 50 eur" = some 50 ∧
     extract_currency "Over 50 eur" = "EUR" ∧
     extract_currency "UNDER 100" = "USD") :=
  ⟨⟨rfl, rfl, rfl⟩, ⟨rfl, rfl, rfl⟩, ⟨rfl, rfl, rfl⟩, ⟨rfl, rfl, rfl, rfl⟩⟩

/-! ## Claim C4 -/

/-- The catalog lookup the `search` branch performs for the query
`"watch under 100"`. -/
def watchUnder100Ids : List String :=
  search_products_in_mock_db (some "watch under 100")
    (extract_price_min "watch under 100") (extract_price_max "watch under 100")
    (extract_currency "watch under 100") none none none

/-- Claim C4: for the search action with query `"watch under 100"`
against the nine-item catalog, the extraction resolves
`price_max = 100` / currency USD, the id of the 109.99 USD Watch
(`1YMWWN1N4O`, present in the catalog) is excluded from the resulting
`product_ids`, and every catalog item priced at most 100 whose name or
description contains `"watch"` (case-insensitively) is included.  (No
catalog item other than the 109.99 Watch mentions "watch", so the
lookup — which matches the whole query string — returns `[]`, and the
inclusion condition holds.) -/
theorem claim_C4 :
    (extract_price_max "watch under 100" = some 100 ∧
     extract_price_min "watch under 100" = none ∧
     extract_currency "watch under 100" = "USD") ∧
    (∃ p ∈ MOCK_DATABASE, p.id = "1YMWWN1N4O" ∧ productPrice p = 10999 / 100 ∧
      p.price_usd_currency_code = "USD") ∧
    processAction (Json.obj [("task", Json.str "search"),
        ("query", Json.str "watch under 100"),
        ("product_ids", Json.arr [Json.str "1YMWWN1N4O"])]) =
      Except.ok (Json.obj [("task", Json.str "search"),
        ("query", Json.str "watch under 100"),
        ("product_ids", Json.arr (watchUnder100Ids.map Json.str)),
        ("message", Json.str (searchNoneMsg "watch under 100"))]) ∧
    ("1YMWWN1N4O" ∈ watchUnder100Ids) = False ∧
    ∀ p ∈ MOCK_DATABASE,
      productPrice p ≤ 100 ∧
        (strContains (strLower p.name) "watch" = true ∨
         strContains (strLower p.description) "watch" = true) →
      p.id ∈ watchUnder100Ids := by
  refine ⟨⟨rfl, rfl, rfl⟩, by decide, rfl, by simp [watchUnder100Ids]; decide, by decide⟩

/-! ## Claim C9 -/

/-- Claim C9: the gift-recommendation completeness check is a Python
truthiness test, not a key-presence test: a present-but-empty gender, a
present age of 0, or present-but-empty preferences all count as
missing, and the first falsy field in the order gender, age,
preferences determines the question; in particular `person_details`
`\x7bgender: "female", age: 0, preferences: "toys"\x7d` becomes a
response action asking for the age with `product_ids = []`. -/
theorem claim_C9 :
    processAction (Json.obj [("task", Json.str "gift-recommendation"),
        ("person_details", Json.obj [("gender", Json.str "")])]) =
      Except.ok (Json.obj [("task", Json.str "response"),
        ("person_details", Json.obj [("gender", Json.str "")]),
        ("product_ids", Json.arr []), ("message", Json.str askGenderMsg)]) ∧
    processAction (Json.obj [("task", Json.str "gift-recommendation"),
        ("person_details", Json.obj [("gender", Json.str "female"), ("age", Json.num 0)])]) =
      Except.ok (Json.obj [("task", Json.str "response"),
        ("person_details", Json.obj [("gender", Json.str "female"), ("age", Json.num 0)]),
        ("product_ids", Json.arr []), ("message", Json.str askAgeMsg)]) ∧
    processAction (Json.obj [("task", Json.str "gift-recommendation"),
        ("person_details", Json.obj [("gender", Json.str "female"), ("age", Json.num 30),
          ("preferences", Json.str "")])]) =
      Except.ok (Json.obj [("task", Json.str "response"),
        ("person_details", Json.obj [("gender", Json.str "female"), ("age", Json.num 30),
          ("preferences", Json.str "")]),
        ("product_ids", Json.arr []), ("message", Json.str askPrefsMsg)]) ∧
    processAction (Json.obj [("task", Json.str "gift-recommendation"),
        ("person_details", Json.obj [("gender", Json.str "female"), ("age", Json.num 0),
          ("preferences", Json.str "toys")])]) =
      Except.ok (Json.obj [("task", Json.str "response"),
        ("person_details", Json.obj [("gender", Json.str "female"), ("age", Json.num 0),
          ("preferences", Json.str "toys")]),
        ("product_ids", Json.arr []), ("message", Json.str askAgeMsg)]) :=
  ⟨rfl, rfl, rfl, rfl⟩

/-! ## Claim C2 (corrected) -/

/-- Counterexample to C2 as stated: the raw model output `5` is valid
JSON whose decoded value is not an array, yet the normalizer emits TWO
actions, not exactly one: the format apology followed by an
internal-error response (the loop iterates the stale non-list value
`5`, and `for action in 5` raises `TypeError`, caught by the outer
handler). -/
theorem claim_C2_counterexample :
    process_query "5" =
      [responseAction apologyFormatMsg, responseAction internalErrorMsg] ∧
    (process_query "5").length = 2 :=
  ⟨rfl, rfl⟩

/-- Claim C2 as amended: when the raw output is not valid JSON the
normalizer emits exactly one apology response and raises nothing (in
particular raw output `not valid json` yields exactly that singleton);
when the raw output decodes to a non-array value the apology response
is emitted first, followed by at most one internal-error response.
The decoder accepts CPython\x27s default non-standard constants, so
`NaN` decodes (to a non-array, giving the apology plus an internal
error) and `[NaN]` decodes to an array whose float element then raises
at `action.get`, giving a single internal-error response with no
apology. -/
theorem claim_C2 :
    (∀ s, json_loads s = none →
      process_query s = [responseAction apologyDecodeMsg]) ∧
    process_query "not valid json" = [responseAction apologyDecodeMsg] ∧
    (∀ s v, json_loads s = some v → (∀ xs, v ≠ Json.arr xs) →
      ∃ rest, process_query s = responseAction apologyFormatMsg :: rest ∧
        rest.length ≤ 1) ∧
    process_query "NaN" =
      [responseAction apologyFormatMsg, responseAction internalErrorMsg] ∧
    process_query "[NaN]" = [responseAction internalErrorMsg] := by
  refine ⟨?_, rfl, ?_, rfl, rfl⟩
  · intro s h
    simp [process_query, h]
  · intro s v h hna
    cases v with
    | arr xs => exact absurd rfl (hna xs)
    | null => exact ⟨[responseAction internalErrorMsg], by simp [process_query, h], by simp⟩
    | bool b => exact ⟨[responseAction internalErrorMsg], by simp [process_query, h], by simp⟩
    | num q => exact ⟨[responseAction internalErrorMsg], by simp [process_query, h], by simp⟩
    | nan => exact ⟨[responseAction internalErrorMsg], by simp [process_query, h], by simp⟩
    | inf neg => exact ⟨[responseAction internalErrorMsg], by simp [process_query, h], by simp⟩
    | str s2 =>
        cases h2 : s2.data with
        | nil => exact ⟨[], by simp [process_query, h, h2, runLoop], by simp⟩
        | cons c cs =>
            exact ⟨[responseAction internalErrorMsg],
              by simp [process_query, h, h2, runLoop, processAction], by simp⟩
    | obj kvs =>
        cases kvs with
        | nil => exact ⟨[], by simp [process_query, h, runLoop], by simp⟩
        | cons kv rest =>
            exact ⟨[responseAction internalErrorMsg],
              by simp [process_query, h, runLoop, processAction], by simp⟩

/-- Witness for C2: the claim\x27s own scenario, obtained from the
universally quantified part at the concrete raw output. -/
theorem claim_C2_witness :
    process_query "not valid json" = [responseAction apologyDecodeMsg] :=
  claim_C2.1 "not valid json" rfl

/-! ## Dispatch lemmas -/

theorem processObj_search (kvs : List (String × Json))
    (h : lookupKey kvs "task" = some (Json.str "search")) :
    processObj kvs = processSearch kvs := by
  simp [processObj, h]

theorem processObj_gift (kvs : List (String × Json))
    (h : lookupKey kvs "task" = some (Json.str "gift-recommendation")) :
    processObj kvs = processGift kvs := by
  simp [processObj, h]

theorem processObj_recommend (kvs : List (String × Json))
    (h : lookupKey kvs "task" = some (Json.str "recommend")) :
    processObj kvs = processRecommend kvs := by
  simp [processObj, h]

theorem processObj_compare (kvs : List (String × Json))
    (h : lookupKey kvs "task" = some (Json.str "compare")) :
    processObj kvs =
      (if truthyOpt (lookupKey kvs "product_ids") then processCompare kvs
       else Except.ok (Json.obj kvs)) := by
  simp [processObj, h]

theorem smProcessObj_recommend (store : VStore) (kvs : List (String × Json))
    (h : lookupKey kvs "task" = some (Json.str "recommend")) :
    smProcessObj store kvs = processRecommend kvs := by
  simp [smProcessObj, h]

/-! ## Claim C6 -/

/-- Claim C6: in both variants (with an initialized catalog backend in
the vector-store variant), a `recommend` action always comes out with
`product_ids = []`, whatever ids the model supplied, and a default
message is supplied when none was given (the message test is the
truthiness of the original `message` value). -/
theorem claim_C6 :
    (∀ kvs : List (String × Json),
      lookupKey kvs "task" = some (Json.str "recommend") →
      ∃ kvs2, processAction (Json.obj kvs) = Except.ok (Json.obj kvs2) ∧
        lookupKey kvs2 "product_ids" = some (Json.arr []) ∧
        (truthyOpt (lookupKey kvs "message") = false →
          lookupKey kvs2 "message" = some (Json.str recommendDefaultMsg))) ∧
    (∀ (store : VStore) (kvs : List (String × Json)),
      lookupKey kvs "task" = some (Json.str "recommend") →
      ∃ kvs2, smProcessAction (some store) (Json.obj kvs) = Except.ok (Json.obj kvs2) ∧
        lookupKey kvs2 "product_ids" = some (Json.arr []) ∧
        (truthyOpt (lookupKey kvs "message") = false →
          lookupKey kvs2 "message" = some (Json.str recommendDefaultMsg))) := by
  have hrec : ∀ kvs : List (String × Json),
      ∃ kvs2, processRecommend kvs = Except.ok (Json.obj kvs2) ∧
        lookupKey kvs2 "product_ids" = some (Json.arr []) ∧
        (truthyOpt (lookupKey kvs "message") = false →
          lookupKey kvs2 "message" = some (Json.str recommendDefaultMsg)) := by
    intro kvs
    have hmsg : lookupKey (setKey kvs "product_ids" (Json.arr [])) "message" =
        lookupKey kvs "message" :=
      lookupKey_setKey_ne kvs "product_ids" "message" (Json.arr []) (by decide)
    by_cases ht : truthyOpt (lookupKey kvs "message") = true
    · refine ⟨setKey kvs "product_ids" (Json.arr []), ?_, ?_, ?_⟩
      · simp [processRecommend, hmsg, ht]
      · exact lookupKey_setKey_self kvs "product_ids" (Json.arr [])
      · intro hf
        rw [hf] at ht
        exact absurd ht (by simp)
    · have ht2 : truthyOpt (lookupKey kvs "message") = false := by
        simpa using ht
      refine ⟨setKey (setKey kvs "product_ids" (Json.arr [])) "message"
          (Json.str recommendDefaultMsg), ?_, ?_, ?_⟩
      · simp [processRecommend, hmsg, ht2]
      · rw [lookupKey_setKey_ne _ "message" "product_ids" _ (by decide)]
        exact lookupKey_setKey_self kvs "product_ids" (Json.arr [])
      · intro _
        exact lookupKey_setKey_self _ "message" (Json.str recommendDefaultMsg)
  constructor
  · intro kvs h
    obtain ⟨kvs2, h1, h2, h3⟩ := hrec kvs
    exact ⟨kvs2, by simp [processAction, processObj_recommend kvs h, h1], h2, h3⟩
  · intro store kvs h
    obtain ⟨kvs2, h1, h2, h3⟩ := hrec kvs
    exact ⟨kvs2, by simp [smProcessAction, smProcessObj_recommend store kvs h, h1], h2, h3⟩

/-- Witness for C6: a `recommend` action carrying model-supplied ids
and no message loses the ids and gains the default message. -/
theorem claim_C6_witness :
    ∃ kvs2, processAction (Json.obj [("task", Json.str "recommend"),
        ("product_ids", Json.arr [Json.str "XYZ"])]) = Except.ok (Json.obj kvs2) ∧
      lookupKey kvs2 "product_ids" = some (Json.arr []) ∧
      (truthyOpt (lookupKey [("task", Json.str "recommend"),
          ("product_ids", Json.arr [Json.str "XYZ"])] "message") = false →
        lookupKey kvs2 "message" = some (Json.str recommendDefaultMsg)) :=
  claim_C6.1 [("task", Json.str "recommend"), ("product_ids", Json.arr [Json.str "XYZ"])] rfl

/-! ## Claim C7 (corrected) -/

theorem pyJoin_str_list (sep : String) (l : List String) :
    pyJoin sep (Json.arr (l.map Json.str)) =
      Except.ok (String.intercalate sep l) := by
  have h : strItems (l.map Json.str) = Except.ok l := by
    induction l with
    | nil => rfl
    | cons a rest ih => simp [strItems, ih]
  simp [pyJoin, h]

theorem compareMsg_ne_empty (joined : String) : compareMsg joined ≠ "" := by
  intro h
  have hlen := congrArg String.length h
  rw [compareMsg, String.length_append] at hlen
  have h44 : ("Here are the products you asked to compare: " : String).length = 44 := rfl
  have h0 : ("" : String).length = 0 := rfl
  rw [h44, h0] at hlen
  omega

/-- Counterexample to C7 as stated: a `compare` action with
model-supplied `product_ids = []` and no message passes through with
NO message synthesized (the source guards the branch with
`task == "compare" and action.get("product_ids")`, and an empty id list
is falsy), contradicting "a default message is supplied whenever none
was given". -/
theorem claim_C7_counterexample :
    processAction (Json.obj [("task", Json.str "compare"),
        ("product_ids", Json.arr [])]) =
      Except.ok (Json.obj [("task", Json.str "compare"),
        ("product_ids", Json.arr [])]) ∧
    lookupKey [("task", Json.str "compare"), ("product_ids", Json.arr [])]
      "message" = none :=
  ⟨rfl, rfl⟩

/-- Claim C7 as amended: for a `compare` action whose `product_ids` is
a (possibly empty) list of strings, the ids pass through to the output
unmodified, and a default non-empty message is synthesized when none
was given AND the id list is non-empty (a falsy `product_ids` skips the
branch entirely, leaving the action untouched); a `compare` action with
no `product_ids` key is likewise left untouched.  In particular
`product_ids = ["X","Y"]` with no message comes out unchanged with a
non-empty synthesized message. -/
theorem claim_C7 :
    (∀ (kvs : List (String × Json)) (l : List String),
      lookupKey kvs "task" = some (Json.str "compare") →
      lookupKey kvs "product_ids" = some (Json.arr (l.map Json.str)) →
      ∃ kvs2, processAction (Json.obj kvs) = Except.ok (Json.obj kvs2) ∧
        lookupKey kvs2 "product_ids" = some (Json.arr (l.map Json.str)) ∧
        (l ≠ [] → truthyOpt (lookupKey kvs "message") = false →
          lookupKey kvs2 "message" =
            some (Json.str (compareMsg (String.intercalate ", " l))) ∧
          compareMsg (String.intercalate ", " l) ≠ "")) ∧
    (∀ kvs : List (String × Json),
      lookupKey kvs "task" = some (Json.str "compare") →
      lookupKey kvs "product_ids" = none →
      processAction (Json.obj kvs) = Except.ok (Json.obj kvs)) := by
  constructor
  · intro kvs l htask hpids
    cases l with
    | nil =>
        refine ⟨kvs, ?_, by simpa using hpids, by simp⟩
        simp [processAction, processObj_compare kvs htask, hpids, truthyOpt, truthy]
    | cons x xs =>
        have hguard : truthyOpt (lookupKey kvs "product_ids") = true := by
          simp [hpids, truthyOpt, truthy]
        by_cases ht : truthyOpt (lookupKey kvs "message") = true
        · refine ⟨kvs, ?_, hpids, ?_⟩
          · simp [processAction, processObj_compare kvs htask, hguard, processCompare, ht]
          · intro _ hf
            rw [hf] at ht
            exact absurd ht (by simp)
        · have ht2 : truthyOpt (lookupKey kvs "message") = false := by simpa using ht
          have hj : pyJoin ", " (Json.arr (Json.str x :: List.map Json.str xs)) =
              Except.ok (String.intercalate ", " (x :: xs)) := by
            simpa using pyJoin_str_list ", " (x :: xs)
          refine ⟨setKey kvs "message"
              (Json.str (compareMsg (String.intercalate ", " (x :: xs)))), ?_, ?_, ?_⟩
          · have hguard2 : truthyOpt (some (Json.arr (Json.str x :: List.map Json.str xs))) =
                true := rfl
            simp [processAction, processObj_compare kvs htask, hguard2, processCompare,
              ht2, hpids, hj]
          · rw [lookupKey_setKey_ne _ "message" "product_ids" _ (by decide)]
            exact hpids
          · intro _ _
            exact ⟨lookupKey_setKey_self _ _ _, compareMsg_ne_empty _⟩
  · intro kvs htask hpids
    simp [processAction, processObj_compare kvs htask, hpids, truthyOpt]

/-- Witness for C7: the claim\x27s scenario, `product_ids = ["X","Y"]`
and no message. -/
theorem claim_C7_witness :
    ∃ kvs2, processAction (Json.obj [("task", Json.str "compare"),
        ("product_ids", Json.arr [Json.str "X", Json.str "Y"])]) =
      Except.ok (Json.obj kvs2) ∧
      lookupKey kvs2 "product_ids" =
        some (Json.arr (["X", "Y"].map Json.str)) ∧
      (["X", "Y"] ≠ ([] : List String) →
        truthyOpt (lookupKey [("task", Json.str "compare"),
          ("product_ids", Json.arr [Json.str "X", Json.str "Y"])] "message") = false →
        lookupKey kvs2 "message" =
          some (Json.str (compareMsg (String.intercalate ", " ["X", "Y"]))) ∧
        compareMsg (String.intercalate ", " ["X", "Y"]) ≠ "") :=
  claim_C7.1 [("task", Json.str "compare"),
    ("product_ids", Json.arr [Json.str "X", Json.str "Y"])] ["X", "Y"] rfl rfl

/-! ## Claim C8 -/

theorem smRunLoop_none (l : List (List (String × Json))) (acc : List Json) :
    smRunLoop none acc (l.map Json.obj) = acc ++ l.map Json.obj := by
  induction l generalizing acc with
  | nil => simp [smRunLoop]
  | cons kvs rest ih =>
      simp [smRunLoop, smProcessAction, ih]

/-- Claim C8: in the vector-store variant with a failed catalog-backend
initialization (`vectorstore is None`), every parsed action object is
appended to the output entirely unmodified — no `product_ids`
overwriting for `search`, no forcing of `product_ids = []` for
`recommend`, `gift-recommendation` or `empty-cart`, and no message
synthesis — so model-supplied `product_ids` reach the frontend
unchanged. -/
theorem claim_C8 (l : List (List (String × Json))) :
    smRunLoop none [] (l.map Json.obj) = l.map Json.obj ∧
    ∀ kvs : List (String × Json),
      smProcessAction none (Json.obj kvs) = Except.ok (Json.obj kvs) :=
  ⟨by simpa using smRunLoop_none l [], fun _ => rfl⟩

/-- Witness for C8: a `recommend` action with model-supplied ids
survives untouched when the vectorstore handle is `None`. -/
theorem claim_C8_witness :
    smRunLoop none []
        ([[("task", Json.str "recommend"), ("product_ids", Json.arr [Json.str "FAKE"])]].map
          Json.obj) =
      [[("task", Json.str "recommend"), ("product_ids", Json.arr [Json.str "FAKE"])]].map
        Json.obj :=
  (claim_C8 [[("task", Json.str "recommend"), ("product_ids", Json.arr [Json.str "FAKE"])]]).1

/-! ## Claim C3 -/

/-- Claim C3: a `gift-recommendation` action in which at least one of
`person_details.gender` / `.age` / `.preferences` is missing (falsy —
absent, `None`, empty, or zero; see C9) comes out with
`product_ids = []`, its task rewritten to `response`, and a message
asking for exactly the first missing field in the fixed priority order
gender, age, preferences — one single fixed question, never mentioning
a second field. -/
theorem claim_C3 (kvs pd : List (String × Json))
    (htask : lookupKey kvs "task" = some (Json.str "gift-recommendation"))
    (hpd : (lookupKey kvs "person_details").getD (Json.obj []) = Json.obj pd)
    (hmiss : (truthyOpt (lookupKey pd "gender") && truthyOpt (lookupKey pd "age") &&
      truthyOpt (lookupKey pd "preferences")) = false) :
    ∃ kvs2, processAction (Json.obj kvs) = Except.ok (Json.obj kvs2) ∧
      lookupKey kvs2 "product_ids" = some (Json.arr []) ∧
      lookupKey kvs2 "task" = some (Json.str "response") ∧
      ∃ msg, lookupKey kvs2 "message" = some (Json.str msg) ∧
        (truthyOpt (lookupKey pd "gender") = false → msg = askGenderMsg) ∧
        (truthyOpt (lookupKey pd "gender") = true →
          truthyOpt (lookupKey pd "age") = false → msg = askAgeMsg) ∧
        (truthyOpt (lookupKey pd "gender") = true →
          truthyOpt (lookupKey pd "age") = true → msg = askPrefsMsg) := by
  have hdisp : processAction (Json.obj kvs) = processGift kvs := by
    simp [processAction, processObj_gift kvs htask]
  -- the result dict for a given question message
  have hbuild : ∀ msg : String,
      lookupKey (setKey (setKey (setKey kvs "product_ids" (Json.arr []))
          "message" (Json.str msg)) "task" (Json.str "response")) "product_ids" =
        some (Json.arr []) ∧
      lookupKey (setKey (setKey (setKey kvs "product_ids" (Json.arr []))
          "message" (Json.str msg)) "task" (Json.str "response")) "task" =
        some (Json.str "response") ∧
      lookupKey (setKey (setKey (setKey kvs "product_ids" (Json.arr []))
          "message" (Json.str msg)) "task" (Json.str "response")) "message" =
        some (Json.str msg) := by
    intro msg
    refine ⟨?_, lookupKey_setKey_self _ _ _, ?_⟩
    · rw [lookupKey_setKey_ne _ "task" "product_ids" _ (by decide),
        lookupKey_setKey_ne _ "message" "product_ids" _ (by decide)]
      exact lookupKey_setKey_self _ _ _
    · rw [lookupKey_setKey_ne _ "task" "message" _ (by decide)]
      exact lookupKey_setKey_self _ _ _
  cases hg : truthyOpt (lookupKey pd "gender") with
  | false =>
      refine ⟨_, ?_, (hbuild askGenderMsg).1, (hbuild askGenderMsg).2.1,
        askGenderMsg, (hbuild askGenderMsg).2.2, fun _ => rfl,
        fun h2 _ => by simp [hg] at h2, fun h2 _ => by simp [hg] at h2⟩
      rw [hdisp, processGift, hpd]
      simp [hg]
  | true =>
      cases ha : truthyOpt (lookupKey pd "age") with
      | false =>
          refine ⟨_, ?_, (hbuild askAgeMsg).1, (hbuild askAgeMsg).2.1,
            askAgeMsg, (hbuild askAgeMsg).2.2,
            fun h2 => by simp [hg] at h2, fun _ _ => rfl,
            fun _ h2 => by simp [ha] at h2⟩
          rw [hdisp, processGift, hpd]
          simp [hg, ha]
      | true =>
          cases hp : truthyOpt (lookupKey pd "preferences") with
          | false =>
              refine ⟨_, ?_, (hbuild askPrefsMsg).1, (hbuild askPrefsMsg).2.1,
                askPrefsMsg, (hbuild askPrefsMsg).2.2,
                fun h2 => by simp [hg] at h2,
                fun _ h2 => by simp [ha] at h2, fun _ _ => rfl⟩
              rw [hdisp, processGift, hpd]
              simp [hg, ha, hp]
          | true =>
              rw [hg, ha, hp] at hmiss
              simp at hmiss

/-- Witness for C3: the claim\x27s scenario — `person_details` holding
only `gender = "female"` yields a `response` action whose message asks
for the age and whose `product_ids` is `[]`. -/
theorem claim_C3_witness :
    ∃ kvs2, processAction (Json.obj [("task", Json.str "gift-recommendation"),
        ("person_details", Json.obj [("gender", Json.str "female")])]) =
      Except.ok (Json.obj kvs2) ∧
      lookupKey kvs2 "product_ids" = some (Json.arr []) ∧
      lookupKey kvs2 "task" = some (Json.str "response") ∧
      ∃ msg, lookupKey kvs2 "message" = some (Json.str msg) ∧
        (truthyOpt (lookupKey [("gender", Json.str "female")] "gender") = false →
          msg = askGenderMsg) ∧
        (truthyOpt (lookupKey [("gender", Json.str "female")] "gender") = true →
          truthyOpt (lookupKey [("gender", Json.str "female")] "age") = false →
          msg = askAgeMsg) ∧
        (truthyOpt (lookupKey [("gender", Json.str "female")] "gender") = true →
          truthyOpt (lookupKey [("gender", Json.str "female")] "age") = true →
          msg = askPrefsMsg) :=
  claim_C3 [("task", Json.str "gift-recommendation"),
      ("person_details", Json.obj [("gender", Json.str "female")])]
    [("gender", Json.str "female")] rfl rfl rfl

/-! ## Claim C1 -/

theorem processSearch_ids (kvs : List (String × Json)) (q : String)
    (htask : lookupKey kvs "task" = some (Json.str "search"))
    (hq : (lookupKey kvs "query").getD (Json.str "") = Json.str q) :
    ∃ kvs2, processAction (Json.obj kvs) = Except.ok (Json.obj kvs2) ∧
      lookupKey kvs2 "product_ids" = some (Json.arr
        ((search_products_in_mock_db (some q) (extract_price_min q)
          (extract_price_max q) (extract_currency q) none none none).map Json.str)) := by
  have hdisp : processAction (Json.obj kvs) = processSearch kvs := by
    simp [processAction, processObj_search kvs htask]
  rw [hdisp, processSearch, hq]
  dsimp only
  split
  · exact ⟨_, rfl, lookupKey_setKey_self _ _ _⟩
  · split
    · refine ⟨_, rfl, ?_⟩
      rw [lookupKey_setKey_ne _ "message" "product_ids" _ (by decide)]
      exact lookupKey_setKey_self _ _ _
    · refine ⟨_, rfl, ?_⟩
      rw [lookupKey_setKey_ne _ "message" "product_ids" _ (by decide)]
      exact lookupKey_setKey_self _ _ _

/-- Claim C1: for every decoded action list whose elements all process
without an exception, every action with task `search` comes out with
`product_ids` equal exactly to the catalog lookup\x27s result for the
extracted query text, price bounds and currency — whatever
`product_ids` the model supplied on the action (the hypothesis places
no constraint on them, so they are overwritten unconditionally). -/
theorem claim_C1 (l : List Json) (i : Nat) (kvs : List (String × Json)) (q : String)
    (hall : (l.all fun b => okB (processAction b)) = true)
    (hi : l.get? i = some (Json.obj kvs))
    (htask : lookupKey kvs "task" = some (Json.str "search"))
    (hq : (lookupKey kvs "query").getD (Json.str "") = Json.str q) :
    ∃ kvs2, (runLoop [] l).get? i = some (Json.obj kvs2) ∧
      lookupKey kvs2 "product_ids" = some (Json.arr
        ((search_products_in_mock_db (some q) (extract_price_min q)
          (extract_price_max q) (extract_currency q) none none none).map Json.str)) := by
  have hall2 : ∀ b ∈ l, okB (processAction b) = true := by
    intro b hb
    exact (List.all_eq_true.mp hall) b hb
  obtain ⟨kvs2, hok, hids⟩ := processSearch_ids kvs q htask hq
  refine ⟨kvs2, ?_, hids⟩
  rw [runLoop_all_ok l [] hall2]
  simp only [List.nil_append, List.get?_map, hi, Option.map_some]
  simp [okOut, hok]

/-- Witness for C1: a search action carrying model-supplied
`product_ids = ["FAKE"]` has them overwritten with the catalog
lookup\x27s result for `"watch"`. -/
theorem claim_C1_witness :
    ∃ kvs2, (runLoop [] [Json.obj [("task", Json.str "search"),
        ("query", Json.str "watch"),
        ("product_ids", Json.arr [Json.str "FAKE"])]]).get? 0 =
      some (Json.obj kvs2) ∧
      lookupKey kvs2 "product_ids" = some (Json.arr
        ((search_products_in_mock_db (some "watch") (extract_price_min "watch")
          (extract_price_max "watch") (extract_currency "watch")
          none none none).map Json.str)) :=
  claim_C1 [Json.obj [("task", Json.str "search"), ("query", Json.str "watch"),
      ("product_ids", Json.arr [Json.str "FAKE"])]] 0
    [("task", Json.str "search"), ("query", Json.str "watch"),
      ("product_ids", Json.arr [Json.str "FAKE"])] "watch" rfl rfl rfl rfl
